import Mathlib

/-!
# Verification of the lease fact-extraction core

Shallow embedding of `app/main.py` (lease-abstraction service): the
deterministic regex extraction pipeline `_extract_lease_facts_from_text`,
the address/suite extractor `_extract_address_and_suite`, the date
normalizer `_normalize_date`, the schema `LEASE_FACTS_SCHEMA`, the output
formatter `_format_facts_output` and the merger `_merge_facts`.

Python regexes are embedded through a small backtracking matcher
(`matchRE`) whose AST mirrors exactly the constructs used by the source
patterns: case-insensitive literals, character classes with greedy or lazy
repetition, alternation (leftmost preference), greedy option, word
boundary, start anchor, and a single capture group.  Strings are modelled
as `List Char`; Python character classes (`\w`, `\s`, `\d`) are modelled
over ASCII, which covers the document texts considered here.
-/

/-! ## Character classes (ASCII model of Python `re` classes) -/

/-- Python `\w` (ASCII): letters, digits, underscore. -/
def isWordChar (c : Char) : Bool := c.isAlphanum || c == '_'

/-- Python `\s` (ASCII): space, tab, newline, carriage return, vertical tab, form feed. -/
def isSpaceChar (c : Char) : Bool :=
  c == ' ' || c == '\t' || c == '\n' || c == '\r' || c == '\x0b' || c == '\x0c'

/-- Python `\d` (ASCII). -/
def isDigitChar (c : Char) : Bool := c.isDigit

/-- Python `.` without `re.DOTALL`: any character except `\n`. -/
def isDotChar (c : Char) : Bool := !(c == '\n')

/-- Python `[^\n\r]`. -/
def isNotCRLF (c : Char) : Bool := !(c == '\n') && !(c == '\r')

/-- Python `[^\d]`. -/
def isNonDigit (c : Char) : Bool := !c.isDigit

/-- Python `[\w\-]`. -/
def isWordOrDash (c : Char) : Bool := isWordChar c || c == '-'

/-- Python `[\d,]`. -/
def isDigitOrComma (c : Char) : Bool := c.isDigit || c == ','

/-- Python `[\d,\.]`. -/
def isNumRunChar (c : Char) : Bool := c.isDigit || c == ',' || c == '.'

/-! ## Regex AST and backtracking matcher -/

/-- Abstract syntax of the regex fragment used by `app/main.py`.
Every repetition in the source patterns ranges over a single character
class, which is what `star`/`plus`/`lazyPlus`/`repCls` capture. -/
inductive RE where
  | lit : List Char → RE                 -- case-insensitive literal
  | cls : (Char → Bool) → RE             -- one character of a class
  | star : (Char → Bool) → RE            -- greedy `*` over a class
  | plus : (Char → Bool) → RE            -- greedy `+` over a class
  | lazyPlus : (Char → Bool) → RE        -- lazy `+?` over a class
  | repCls : (Char → Bool) → Nat → Nat → RE  -- greedy `{lo,hi}` over a class
  | seq : RE → RE → RE
  | alt : RE → RE → RE                   -- leftmost alternative preferred
  | opt : RE → RE                        -- greedy `?`
  | wb : RE                              -- `\b`
  | bos : RE                             -- `^` (no MULTILINE)
  | grp : RE → RE                        -- capture group 1

/-- Match result: end position of the whole match and the span of group 1. -/
abbrev MRes := Option (Nat × Option (Nat × Nat))

def charAt (s : List Char) (i : Nat) : Option Char := s.get? i

/-- Length of the maximal run of characters satisfying `p` starting at `i`. -/
def runLen (p : Char → Bool) (s : List Char) (i : Nat) : Nat :=
  ((s.drop i).takeWhile p).length

/-- Case-insensitive literal match at position `i`. -/
def litMatchesAt : List Char → List Char → Nat → Bool
  | [], _, _ => true
  | c :: cs, s, i =>
    match charAt s i with
    | some c2 => (c2.toLower == c.toLower) && litMatchesAt cs s (i + 1)
    | none => false

def wordAt (s : List Char) (i : Nat) : Bool :=
  match charAt s i with
  | some c => isWordChar c
  | none => false

/-- Python `\b`: a word character on exactly one side of position `i`. -/
def isBoundaryAt (s : List Char) (i : Nat) : Bool :=
  (if i == 0 then false else wordAt s (i - 1)) != wordAt s i

/-- Try repetition counts `j, j-1, ..., lo` (greedy backtracking order). -/
def tryDown (k : Nat → Option α) (lo : Nat) : Nat → Option α
  | 0 => k 0
  | j + 1 =>
    match k (j + 1) with
    | some r => some r
    | none => if lo ≤ j then tryDown k lo j else none

/-- Try repetition counts `j, j+1, ..., j+left` (lazy order). -/
def tryUp (k : Nat → Option α) : Nat → Nat → Option α
  | j, 0 => k j
  | j, left + 1 =>
    match k j with
    | some r => some r
    | none => tryUp k (j + 1) left

/-- Backtracking matcher in continuation-passing style, reproducing Python
`re` semantics on the fragment of `RE`: greedy quantifiers try the longest
run first, lazy ones the shortest, alternation prefers the left branch. -/
def matchRE (s : List Char) : RE → Nat → Option (Nat × Nat) →
    (Nat → Option (Nat × Nat) → MRes) → MRes
  | .lit l, i, cap, k => if litMatchesAt l s i then k (i + l.length) cap else none
  | .cls p, i, cap, k =>
    match charAt s i with
    | some c => if p c then k (i + 1) cap else none
    | none => none
  | .star p, i, cap, k => tryDown (fun j => k (i + j) cap) 0 (runLen p s i)
  | .plus p, i, cap, k =>
    let n := runLen p s i
    if n = 0 then none else tryDown (fun j => k (i + j) cap) 1 n
  | .lazyPlus p, i, cap, k =>
    let n := runLen p s i
    if n = 0 then none else tryUp (fun j => k (i + j) cap) 1 (n - 1)
  | .repCls p lo hi, i, cap, k =>
    let n := min hi (runLen p s i)
    if n < lo then none else tryDown (fun j => k (i + j) cap) lo n
  | .seq a b, i, cap, k => matchRE s a i cap (fun i2 c2 => matchRE s b i2 c2 k)
  | .alt a b, i, cap, k =>
    match matchRE s a i cap k with
    | some r => some r
    | none => matchRE s b i cap k
  | .opt a, i, cap, k =>
    match matchRE s a i cap k with
    | some r => some r
    | none => k i cap
  | .wb, i, cap, k => if isBoundaryAt s i then k i cap else none
  | .bos, i, cap, k => if i == 0 then k i cap else none
  | .grp a, i, cap, k => matchRE s a i cap (fun i2 _ => k i2 (some (i, i2)))

/-- Attempt a match anchored at position `i`. -/
def searchAt (r : RE) (s : List Char) (i : Nat) : MRes :=
  matchRE s r i none (fun e c => some (e, c))

/-- `re.search`: try successive start positions, leftmost match wins.
Returns (start, end, group-1 span). -/
def searchLoop (r : RE) (s : List Char) : Nat → Nat → Option (Nat × Nat × Option (Nat × Nat))
  | _, 0 => none
  | i, fuel + 1 =>
    match searchAt r s i with
    | some (e, c) => some (i, e, c)
    | none => searchLoop r s (i + 1) fuel

def reSearch (r : RE) (t : String) : Option (Nat × Nat × Option (Nat × Nat)) :=
  searchLoop r t.data 0 (t.data.length + 1)

def sliceChars (s : List Char) (a b : Nat) : List Char := (s.drop a).take (b - a)

/-- Python `str.strip(chars)`: drop characters satisfying `p` from both ends. -/
def stripBoth (p : Char → Bool) (l : List Char) : List Char :=
  ((l.dropWhile p).reverse.dropWhile p).reverse

/-- The strip set of `.strip(" ,;-")` used by the address extractor. -/
def isAddrTrimChar (c : Char) : Bool := c == ' ' || c == ',' || c == ';' || c == '-'

/-- `_first_match(pattern, text)`: `m.group(1).strip()` on the first match,
`None` when the pattern does not match (`app/main.py` lines 101-103). -/
def firstMatch (r : RE) (t : String) : Option String :=
  match reSearch r t with
  | some (_, _, some (a, b)) => some (String.mk (stripBoth isSpaceChar (sliceChars t.data a b)))
  | some (_, _, none) => none
  | none => none

/-- One step list of `re.sub(r, "", s)`: drop every non-overlapping match,
scanning left to right. -/
def subAllLoop (r : RE) (s : List Char) : Nat → Nat → List Char
  | 0, _ => []
  | fuel + 1, i =>
    if i < s.length then
      match searchAt r s i with
      | some (e, _) =>
        if i < e then subAllLoop r s fuel e
        else (charAt s i).toList ++ subAllLoop r s fuel (i + 1)
      | none => (charAt s i).toList ++ subAllLoop r s fuel (i + 1)
    else []

/-- `re.sub(r, "", s)` (the source patterns never match the empty string). -/
def reSubAll (r : RE) (s : List Char) : List Char :=
  subAllLoop r s (s.length + 1) 0

/-- Line-separator characters of Python `str.splitlines`. -/
def isLineSep (c : Char) : Bool :=
  c == '\n' || c == '\r' || c == '\x0b' || c == '\x0c' ||
  c == '\x1c' || c == '\x1d' || c == '\x1e' || c == '\x85' ||
  c == '\u2028' || c == '\u2029'

def splitlinesGo : List Char → List Char → List (List Char)
  | [], acc => [acc.reverse]
  | '\r' :: '\n' :: rest, acc =>
    acc.reverse :: (if rest.isEmpty then [] else splitlinesGo rest [])
  | c :: rest, acc =>
    if isLineSep c then acc.reverse :: (if rest.isEmpty then [] else splitlinesGo rest [])
    else splitlinesGo rest (c :: acc)

/-- Python `str.splitlines()`. -/
def pySplitlines (t : String) : List (List Char) :=
  if t.data.isEmpty then [] else splitlinesGo t.data []

/-! ## Pattern combinators and the source regexes -/

def rlit (t : String) : RE := RE.lit t.data

def rseq (l : List RE) : RE := l.foldr RE.seq (RE.lit [])

def ralt : List RE → RE
  | [] => RE.lit []
  | [r] => r
  | r :: rest => RE.alt r (ralt rest)

def reSearchL (r : RE) (s : List Char) : Option (Nat × Nat × Option (Nat × Nat)) :=
  searchLoop r s 0 (s.length + 1)

/-- Line 112: `\b(?:Premises(?:\s*Address)?|Property(?:\s*Address)?|Address)\s*(?:\:|\-)\s*(.+)` -/
def patAddrLabel : RE :=
  rseq [RE.wb,
        ralt [rseq [rlit "premises", RE.opt (rseq [RE.star isSpaceChar, rlit "address"])],
              rseq [rlit "property", RE.opt (rseq [RE.star isSpaceChar, rlit "address"])],
              rlit "address"],
        RE.star isSpaceChar, ralt [rlit ":", rlit "-"], RE.star isSpaceChar,
        RE.grp (RE.plus isDotChar)]

/-- Lines 115, 132, 140: `(?:Suite|Ste\.?|#)\s*([\w\-]+)` -/
def patSuite : RE :=
  rseq [ralt [rlit "suite", rseq [rlit "ste", RE.opt (rlit ".")], rlit "#"],
        RE.star isSpaceChar, RE.grp (RE.plus isWordOrDash)]

/-- Line 118 (the `re.sub` pattern): `(?:,?\s*)(?:Suite|Ste\.?|#)\s*[\w\-]+` -/
def patSuiteSub : RE :=
  rseq [RE.opt (rlit ","), RE.star isSpaceChar,
        ralt [rlit "suite", rseq [rlit "ste", RE.opt (rlit ".")], rlit "#"],
        RE.star isSpaceChar, RE.plus isWordOrDash]

/-- Line 124 `street_pat`:
`^\s*\d{1,6}\s+.+?(?:Street|St\.|Avenue|Ave\.|Road|Rd\.|Boulevard|Blvd\.|Lane|Ln\.|Drive|Dr\.|Court|Ct\.|Way|Terrace|Ter\.)\b.*` -/
def patStreet : RE :=
  rseq [RE.bos, RE.star isSpaceChar, RE.repCls isDigitChar 1 6, RE.plus isSpaceChar,
        RE.lazyPlus isDotChar,
        ralt [rlit "street", rlit "st.", rlit "avenue", rlit "ave.", rlit "road", rlit "rd.",
              rlit "boulevard", rlit "blvd.", rlit "lane", rlit "ln.", rlit "drive", rlit "dr.",
              rlit "court", rlit "ct.", rlit "way", rlit "terrace", rlit "ter."],
        RE.wb, RE.star isDotChar]

/-- Line 149: `\bTenant\s*:\s*(.+)` -/
def patTenant : RE :=
  rseq [RE.wb, rlit "tenant", RE.star isSpaceChar, rlit ":", RE.star isSpaceChar,
        RE.grp (RE.plus isDotChar)]

/-- Line 150: `\bLandlord\s*:\s*(.+)` -/
def patLandlord : RE :=
  rseq [RE.wb, rlit "landlord", RE.star isSpaceChar, rlit ":", RE.star isSpaceChar,
        RE.grp (RE.plus isDotChar)]

/-- Line 156: `\b(?:Rentable|Leasable|Approx\.?|Total)?\s*(?:Square\s*Feet|Sq\.?\s*Ft\.?|SF)[^\d]*(\d[\d,\.]+)` -/
def patSquareFeet : RE :=
  rseq [RE.wb,
        RE.opt (ralt [rlit "rentable", rlit "leasable", rseq [rlit "approx", RE.opt (rlit ".")],
                      rlit "total"]),
        RE.star isSpaceChar,
        ralt [rseq [rlit "square", RE.star isSpaceChar, rlit "feet"],
              rseq [rlit "sq", RE.opt (rlit "."), RE.star isSpaceChar, rlit "ft",
                    RE.opt (rlit ".")],
              rlit "sf"],
        RE.star isNonDigit,
        RE.grp (rseq [RE.cls isDigitChar, RE.plus isNumRunChar])]

/-- Line 160: `\b(?:Lease\s*)?Commencement\s*Date\s*:?\s*([^\n\r]+)` -/
def patCommence : RE :=
  rseq [RE.wb, RE.opt (rseq [rlit "lease", RE.star isSpaceChar]),
        rlit "commencement", RE.star isSpaceChar, rlit "date",
        RE.star isSpaceChar, RE.opt (rlit ":"), RE.star isSpaceChar,
        RE.grp (RE.plus isNotCRLF)]

/-- Line 161: `\b(?:Lease\s*)?(?:Expiration|Expiry)\s*Date\s*:?\s*([^\n\r]+)` -/
def patExpire : RE :=
  rseq [RE.wb, RE.opt (rseq [rlit "lease", RE.star isSpaceChar]),
        ralt [rlit "expiration", rlit "expiry"], RE.star isSpaceChar, rlit "date",
        RE.star isSpaceChar, RE.opt (rlit ":"), RE.star isSpaceChar,
        RE.grp (RE.plus isNotCRLF)]

/-- Line 166: `\bProportionate\s+Share\s*:?\s*(\d{1,2}(?:\.\d+)?\s*%)` -/
def patShare : RE :=
  rseq [RE.wb, rlit "proportionate", RE.plus isSpaceChar, rlit "share",
        RE.star isSpaceChar, RE.opt (rlit ":"), RE.star isSpaceChar,
        RE.grp (rseq [RE.repCls isDigitChar 1 2, RE.opt (rseq [rlit ".", RE.plus isDigitChar]),
                      RE.star isSpaceChar, rlit "%"])]

/-- Line 169: `\bBase\s+Year\s*:?\s*(\d{4})\b` -/
def patBaseYear : RE :=
  rseq [RE.wb, rlit "base", RE.plus isSpaceChar, rlit "year",
        RE.star isSpaceChar, RE.opt (rlit ":"), RE.star isSpaceChar,
        RE.grp (RE.repCls isDigitChar 4 4), RE.wb]

/-- Line 172: `\bSecurity\s+Deposit\s*:?\s*(?:\$\s*)?([\d,]+(?:\.\d{2})?)\b` -/
def patDeposit : RE :=
  rseq [RE.wb, rlit "security", RE.plus isSpaceChar, rlit "deposit",
        RE.star isSpaceChar, RE.opt (rlit ":"), RE.star isSpaceChar,
        RE.opt (rseq [rlit "$", RE.star isSpaceChar]),
        RE.grp (rseq [RE.plus isDigitOrComma,
                      RE.opt (rseq [rlit ".", RE.repCls isDigitChar 2 2])]),
        RE.wb]

/-- Line 175: `\bSecurity\s+Deposit\b[^\n\r]*(?:None|N/A|No\s+Deposit)` -/
def patDepositNone : RE :=
  rseq [RE.wb, rlit "security", RE.plus isSpaceChar, rlit "deposit", RE.wb,
        RE.star isNotCRLF,
        ralt [rlit "none", rlit "n/a", rseq [rlit "no", RE.plus isSpaceChar, rlit "deposit"]]]

/-! ## Fact records (Python dicts with `Optional[str]` values) -/

/-- A Python `Dict[str, Optional[str]]`, as an association list. -/
abbrev Facts := List (String × Option String)

/-- Raw dict lookup: `none` when the key is absent, `some v` when present
with (possibly `None`) value `v`. -/
def alGet (k : String) : Facts → Option (Option String)
  | [] => none
  | (k2, v) :: rest => if k2 == k then some v else alGet k rest

/-- Python `d.get(key)`: both an absent key and a `None` value give `None`. -/
def dGet (k : String) (f : Facts) : Option String :=
  match alGet k f with
  | some (some s) => some s
  | _ => none

def keysOf (f : Facts) : List String := f.map Prod.fst

/-- Python truthiness of an `Optional[str]`: `None` and `""` are falsy. -/
def pyTruthy : Option String → Bool
  | none => false
  | some s => !(s == "")

/-- The eleven canonical keys, in the order of `LEASE_FACTS_SCHEMA` (lines 201-213). -/
def SCHEMA_KEYS : List String :=
  ["tenant_name", "landlord_name", "property_address", "suite",
   "property_address_and_suite", "total_square_feet", "lease_commencement_date",
   "lease_expiration_date", "proportionate_share", "base_year", "security_deposit"]

/-- `LEASE_FACTS_SCHEMA`: every canonical key mapped to `None`. -/
def LEASE_FACTS_SCHEMA : Facts := SCHEMA_KEYS.map (fun k => (k, none))

/-- Value transformation of `_format_facts_output` (lines 216-219) at one key:
absent, `None` and `""` become the missing sentinel, anything else is kept. -/
def normVal : Option (Option String) → Option String
  | some (some s) => if s == "" then none else some s
  | _ => none

/-- `_format_facts_output` (lines 216-219): start from `LEASE_FACTS_SCHEMA`
and update every canonical key present in the input, mapping `""`/`None` to
`None`; keys outside the schema are dropped by the `if k in out` filter. -/
def formatFactsOutput (facts : Facts) : Facts :=
  SCHEMA_KEYS.map (fun k => (k, normVal (alGet k facts)))

/-- Python `x or y` on `Optional[str]` operands (line 265). -/
def pyOrOpt (a b : Option String) : Option String := if pyTruthy a then a else b

/-- `_merge_facts` (lines 262-266): `merged = dict(LEASE_FACTS_SCHEMA)`, then
`merged[key] = primary.get(key) or secondary.get(key)` for each schema key. -/
def mergeFacts (primary secondary : Facts) : Facts :=
  SCHEMA_KEYS.map (fun k => (k, pyOrOpt (dGet k primary) (dGet k secondary)))

/-! ## Date normalizer -/

/-- Accumulator pass for `tokenizeRuns`; `acc` is the current run, reversed. -/
def tokenizeRunsGo : List Char → List Char → List (List Char)
  | [], acc => if acc.isEmpty then [] else [acc.reverse]
  | c :: rest, acc =>
    if c.isAlphanum then tokenizeRunsGo rest (c :: acc)
    else if acc.isEmpty then tokenizeRunsGo rest []
    else acc.reverse :: tokenizeRunsGo rest []

/-- Maximal alphanumeric runs of a character list (tokens of the fuzzy parse model). -/
def tokenizeRuns (l : List Char) : List (List Char) :=
  tokenizeRunsGo l []

/-- English month names and the abbreviations recognized by the parser model. -/
def monthNames : List (String × Nat) :=
  [("january", 1), ("february", 2), ("march", 3), ("april", 4), ("may", 5), ("june", 6),
   ("july", 7), ("august", 8), ("september", 9), ("october", 10), ("november", 11),
   ("december", 12), ("jan", 1), ("feb", 2), ("mar", 3), ("apr", 4), ("jun", 6), ("jul", 7),
   ("aug", 8), ("sep", 9), ("sept", 9), ("oct", 10), ("nov", 11), ("dec", 12)]

def lowerRun (t : List Char) : String := String.mk (t.map Char.toLower)

def monthOfTok (t : List Char) : Option Nat :=
  (monthNames.find? (fun p => p.1 == lowerRun t)).map Prod.snd

def natOfDigits (t : List Char) : Nat :=
  t.foldl (fun n c => n * 10 + (c.toNat - '0'.toNat)) 0

def isDayTok (t : List Char) : Bool :=
  !t.isEmpty && t.all Char.isDigit && t.length ≤ 2 &&
  1 ≤ natOfDigits t && natOfDigits t ≤ 31

def isYearTok (t : List Char) : Bool :=
  t.all Char.isDigit && t.length == 4 && 1000 ≤ natOfDigits t && natOfDigits t ≤ 9999

/-- Modelled from the spec: `_normalize_date` (lines 89-98) delegates to the
external library call `dateutil.parser.parse(value, dayfirst=False, fuzzy=True)`,
whose code is not part of this repository.  Following the spec's words —
"interpret using month-name-before-day bias when ambiguous ('fuzzy' parse:
extract the first recognizable date token even if surrounded by non-date
text)" — the model tokenizes the input into alphanumeric runs and takes the
first month-name token as the month, the first 1–2 digit token in `1..31` as
the day and the first 4-digit token as the year; if any of the three is
absent the parse fails (the `except` branch of `_normalize_date`). -/
def parseFuzzyDate (value : String) : Option (Nat × Nat × Nat) :=
  let toks := tokenizeRuns value.data
  match toks.findSome? monthOfTok, toks.find? isDayTok, toks.find? isYearTok with
  | some m, some dt, some yt => some (natOfDigits dt, m, natOfDigits yt)
  | _, _, _ => none

def digitCharOf (n : Nat) : Char := Nat.digitChar (n % 10)

/-- `dt.strftime("%d-%m-%Y")` for day and month below 100 and a four-digit
year: zero-padded `DD-MM-YYYY`. -/
def strftimeDMY (d m y : Nat) : String :=
  String.mk [digitCharOf (d / 10), digitCharOf d, '-',
             digitCharOf (m / 10), digitCharOf m, '-',
             digitCharOf (y / 1000), digitCharOf (y / 100), digitCharOf (y / 10), digitCharOf y]

/-- `_normalize_date` (lines 89-98): format the fuzzy parse as `DD-MM-YYYY`,
`None` on parse failure (the function never raises: the `try/except` returns
`None` on any exception). -/
def normalizeDate (value : String) : Option String :=
  match parseFuzzyDate value with
  | some (d, m, y) => some (strftimeDMY d m y)
  | none => none

/-! ## Address and suite extraction (`_extract_address_and_suite`, lines 106-144) -/

/-- Step 1 (lines 111-120): label-based capture.  On a label match, search the
captured line for a suite marker; with a marker, the suite is group 1 and the
address is the line with the suite substring removed and `" ,;-"` stripped;
without one, the address is the whole captured line. -/
def extractAddressStep1 (text : List Char) : Option (List Char) × Option (List Char) :=
  match reSearchL patAddrLabel text with
  | some (_, _, some (a, b)) =>
    let line := stripBoth isSpaceChar (sliceChars text a b)
    match reSearchL patSuite line with
    | some (_, _, some (c, d)) =>
      (some (stripBoth isAddrTrimChar (reSubAll patSuiteSub line)),
       some (stripBoth isSpaceChar (sliceChars line c d)))
    | _ => (some line, none)
  | _ => (none, none)

/-- Lines 131-135: first suite match over the candidate lines. -/
def suiteFromCandLines : List (List Char) → Option (List Char)
  | [] => none
  | cl :: rest =>
    match reSearchL patSuite cl with
    | some (_, _, some (c, d)) => some (stripBoth isSpaceChar (sliceChars cl c d))
    | _ => suiteFromCandLines rest

/-- Step 2 (lines 122-136): scan stripped lines for the first street-pattern
line; its `" ,;-"`-stripped text is the address, and the suite (if any) comes
from that line or the immediately following one. -/
def streetScan : List (List Char) → Option (List Char × Option (List Char))
  | [] => none
  | l :: rest =>
    match reSearchL patStreet l with
    | some _ =>
      some (stripBoth isAddrTrimChar l,
            suiteFromCandLines (l :: (match rest with | nl :: _ => [nl] | [] => [])))
    | none => streetScan rest

/-- Python truthiness of the `address`/`suite` locals (`Optional[str]` holding
a character list). -/
def pyTruthyOptL : Option (List Char) → Bool
  | none => false
  | some l => !l.isEmpty

/-- `_extract_address_and_suite` (lines 106-144): the three ordered strategies.
Step 2 runs only `if not address`, keeps a step-1 suite when the candidate
lines have no marker, and step 3 runs only `if not suite`, searching the whole
text. -/
def extractAddressAndSuite (text : String) : Option String × Option String :=
  let s := text.data
  let lines := (pySplitlines text).map (stripBoth isSpaceChar)
  let step1 := extractAddressStep1 s
  let address1 := step1.1
  let suite1 := step1.2
  let step2 :=
    if pyTruthyOptL address1 then (address1, suite1)
    else
      match streetScan lines with
      | some (a, some su) => (some a, some su)
      | some (a, none) => (some a, suite1)
      | none => (address1, suite1)
  let address2 := step2.1
  let suite2 := step2.2
  let suite3 :=
    if pyTruthyOptL suite2 then suite2
    else
      match reSearchL patSuite s with
      | some (_, _, some (c, d)) => some (stripBoth isSpaceChar (sliceChars s c d))
      | _ => suite2
  (address2.map String.mk, suite3.map String.mk)

/-! ## The deterministic extraction pipeline -/

/-- Line 157: `re.sub(r"[^\d\.]", "", square_feet_raw)` — the numeric
normalizer, keeping only digits and `.`. -/
def numericNormalize (t : String) : String :=
  String.mk (t.data.filter (fun c => c.isDigit || c == '.'))

/-- Lines 178-184: the derived `combined_addr` as a function of the `address`
and `suite` locals (Python truthiness: `None` and `""` are falsy). -/
def combineAddrSuite (address suite : Option String) : Option String :=
  if pyTruthy address && pyTruthy suite then
    some (address.getD "" ++ " Suite " ++ suite.getD "")
  else if pyTruthy address then address
  else if pyTruthy suite then some ("Suite " ++ suite.getD "")
  else none

/-- `_extract_lease_facts_from_text` (lines 147-198). -/
def extractLeaseFactsFromText (text : String) : Facts :=
  let tenant := firstMatch patTenant text
  let landlord := firstMatch patLandlord text
  let addrSuite := extractAddressAndSuite text
  let address := addrSuite.1
  let suite := addrSuite.2
  let squareFeetRaw := firstMatch patSquareFeet text
  let squareFeet := if pyTruthy squareFeetRaw then squareFeetRaw.map numericNormalize else none
  let commenceRaw := firstMatch patCommence text
  let expireRaw := firstMatch patExpire text
  let leaseCommencement := if pyTruthy commenceRaw then normalizeDate (commenceRaw.getD "") else none
  let leaseExpiration := if pyTruthy expireRaw then normalizeDate (expireRaw.getD "") else none
  let proportionateShare := firstMatch patShare text
  let baseYear := firstMatch patBaseYear text
  let sd0 := firstMatch patDeposit text
  let securityDeposit :=
    if pyTruthy sd0 then sd0
    else match reSearch patDepositNone text with
         | some _ => some "None"
         | none => none
  let combinedAddr := combineAddrSuite address suite
  [("tenant_name", tenant),
   ("landlord_name", landlord),
   ("property_address", address),
   ("suite", suite),
   ("property_address_and_suite", combinedAddr),
   ("total_square_feet", squareFeet),
   ("lease_commencement_date", leaseCommencement),
   ("lease_expiration_date", leaseExpiration),
   ("proportionate_share", proportionateShare),
   ("base_year", baseYear),
   ("security_deposit", if pyTruthy securityDeposit then securityDeposit else none)]

/-! ## Statement-level definitions -/

/-- Canonical `DD-MM-YYYY` surface form: ten characters, digits in the
day, month and year positions, `-` separators. -/
def isCanonDDMMYYYY (s : String) : Bool :=
  match s.data with
  | [d1, d2, h1, m1, m2, h2, y1, y2, y3, y4] =>
    d1.isDigit && d2.isDigit && (h1 == '-') && m1.isDigit && m2.isDigit && (h2 == '-') &&
    y1.isDigit && y2.isDigit && y3.isDigit && y4.isDigit
  | _ => false

/-- The spec's documented derived-field function, written from the spec's
words (not from the source, for comparison against `combineAddrSuite`):
`"{address} Suite {suite}"` when both are present, the one present part when
only one is present, and missing when both are missing; "present" meaning
non-missing. -/
def specCombineAddrSuite (address suite : Option String) : Option String :=
  match address, suite with
  | some a, some su => some (a ++ " Suite " ++ su)
  | some a, none => some a
  | none, some su => some su
  | none, none => none

/-! ## Helper lemmas -/

theorem dGet_of_alGet {k : String} {f : Facts} {v : Option String}
    (h : alGet k f = some v) : dGet k f = v := by
  cases v <;> simp [dGet, h]

theorem alGet_mapped (g : String → Option String) :
    ∀ (ks : List String) (k : String), k ∈ ks →
      alGet k (ks.map (fun k2 => (k2, g k2))) = some (g k) := by
  intro ks
  induction ks with
  | nil => intro k hk; cases hk
  | cons a t ih =>
    intro k hk
    by_cases h : a = k
    · subst h; simp [alGet]
    · have hk2 : k ∈ t := by
        rcases List.mem_cons.mp hk with h1 | h1
        · exact absurd h1.symm h
        · exact h1
      simp only [List.map_cons, alGet]
      rw [if_neg (by simpa using h)]
      exact ih k hk2

theorem alGet_mapped_none (g : String → Option String) :
    ∀ (ks : List String) (k : String), k ∉ ks →
      alGet k (ks.map (fun k2 => (k2, g k2))) = none := by
  intro ks
  induction ks with
  | nil => intro k _; rfl
  | cons a t ih =>
    intro k hk
    have h1 : a ≠ k := fun h => hk (h ▸ List.mem_cons_self a t)
    have h2 : k ∉ t := fun h => hk (List.mem_cons_of_mem a h)
    simp only [List.map_cons, alGet]
    rw [if_neg (by simpa using h1)]
    exact ih k h2

theorem keysOf_mapped (g : String → Option String) (ks : List String) :
    keysOf (ks.map (fun k2 => (k2, g k2))) = ks := by
  induction ks with
  | nil => rfl
  | cons a t ih => simpa [keysOf] using ih

theorem normVal_idem (o : Option (Option String)) :
    normVal (some (normVal o)) = normVal o := by
  rcases o with _ | o
  · rfl
  rcases o with _ | s
  · rfl
  by_cases h : s = ""
  · subst h; rfl
  · simp [normVal, h]

theorem normVal_shape (o : Option (Option String)) :
    normVal o = none ∨ ∃ s, normVal o = some s ∧ s ≠ "" := by
  rcases o with _ | o
  · left; rfl
  rcases o with _ | s
  · left; rfl
  by_cases h : s = ""
  · left; simp [normVal, h]
  · right; exact ⟨s, by simp [normVal, h], h⟩

theorem isDigit_digitCharOf (n : Nat) : (digitCharOf n).isDigit = true := by
  have h : n % 10 < 10 := Nat.mod_lt _ (by norm_num)
  have hfin : ∀ m : Fin 10, (Nat.digitChar m.val).isDigit = true := by decide
  exact hfin ⟨n % 10, h⟩

theorem isCanon_strftimeDMY (d m y : Nat) :
    isCanonDDMMYYYY (strftimeDMY d m y) = true := by
  simp [strftimeDMY, isCanonDDMMYYYY, isDigit_digitCharOf]

/-- The `security_deposit` entry of the pipeline record, as stored by lines
171-176 and 197 (no numeric normalization is applied on this path). -/
theorem alGet_security_deposit (text : String) :
    alGet "security_deposit" (extractLeaseFactsFromText text) =
      some (if pyTruthy (if pyTruthy (firstMatch patDeposit text)
                         then firstMatch patDeposit text
                         else match reSearch patDepositNone text with
                              | some _ => some "None"
                              | none => none)
            then (if pyTruthy (firstMatch patDeposit text)
                  then firstMatch patDeposit text
                  else match reSearch patDepositNone text with
                       | some _ => some "None"
                       | none => none)
            else none) := rfl

/-! ## Claim theorems -/

/-- C1 (counterexample): the claim fails for the record the Fact Merger
produces.  Both concrete inputs satisfy the documented derived-field law,
yet the merged record's `property_address_and_suite` (taken from the
primary, which has no suite) is not the documented function of the merged
record's `property_address` (from the primary) and `suite` (from the
secondary). -/
theorem C1_merger_counterexample :
    dGet "property_address_and_suite"
        [("property_address", some "10 Elm St."), ("property_address_and_suite", some "10 Elm St.")] =
      specCombineAddrSuite
        (dGet "property_address"
          [("property_address", some "10 Elm St."), ("property_address_and_suite", some "10 Elm St.")])
        (dGet "suite"
          [("property_address", some "10 Elm St."), ("property_address_and_suite", some "10 Elm St.")]) ∧
    dGet "property_address_and_suite" [("suite", some "4B"), ("property_address_and_suite", some "4B")] =
      specCombineAddrSuite
        (dGet "property_address" [("suite", some "4B"), ("property_address_and_suite", some "4B")])
        (dGet "suite" [("suite", some "4B"), ("property_address_and_suite", some "4B")]) ∧
    ¬ (dGet "property_address_and_suite"
        (mergeFacts
          [("property_address", some "10 Elm St."), ("property_address_and_suite", some "10 Elm St.")]
          [("suite", some "4B"), ("property_address_and_suite", some "4B")]) =
      specCombineAddrSuite
        (dGet "property_address"
          (mergeFacts
            [("property_address", some "10 Elm St."), ("property_address_and_suite", some "10 Elm St.")]
            [("suite", some "4B"), ("property_address_and_suite", some "4B")]))
        (dGet "suite"
          (mergeFacts
            [("property_address", some "10 Elm St."), ("property_address_and_suite", some "10 Elm St.")]
            [("suite", some "4B"), ("property_address_and_suite", some "4B")]))) :=
  ⟨by decide, by decide, by decide⟩

/-- C1 (amended): every record produced by the deterministic extraction
pipeline has `property_address_and_suite` equal to the code's pure function
`combineAddrSuite` of that record's `property_address` and `suite` (lines
178-184): `"{address} Suite {suite}"` when both are present and non-empty,
`address` when only the address is, `"Suite {suite}"` when only the suite
is, missing otherwise.  The Fact Merger does not recompute the field, so
its output need not satisfy the law. -/
theorem C1_pipeline_derived_field_law (text : String) :
    dGet "property_address_and_suite" (extractLeaseFactsFromText text) =
      combineAddrSuite (dGet "property_address" (extractLeaseFactsFromText text))
        (dGet "suite" (extractLeaseFactsFromText text)) := by
  have h1 : alGet "property_address_and_suite" (extractLeaseFactsFromText text) =
      some (combineAddrSuite (extractAddressAndSuite text).1 (extractAddressAndSuite text).2) := rfl
  have h2 : alGet "property_address" (extractLeaseFactsFromText text) =
      some (extractAddressAndSuite text).1 := rfl
  have h3 : alGet "suite" (extractLeaseFactsFromText text) =
      some (extractAddressAndSuite text).2 := rfl
  rw [dGet_of_alGet h1, dGet_of_alGet h2, dGet_of_alGet h3]

/-- C2: for every pair of records whose canonical-key values are never the
empty string (the data model allows only normalized non-empty strings or
the missing sentinel) and every one of the eleven keys, the merged value is
the primary's value when present — regardless of the secondary — and
otherwise the secondary's value when present, and otherwise missing. -/
theorem C2_merge_priority_completion (p s : Facts)
    (hp : ∀ k ∈ SCHEMA_KEYS, dGet k p ≠ some "") (k : String) (hk : k ∈ SCHEMA_KEYS) :
    (∀ v, dGet k p = some v → dGet k (mergeFacts p s) = some v) ∧
    (dGet k p = none → dGet k (mergeFacts p s) = dGet k s) := by
  have halg : alGet k (mergeFacts p s) = some (pyOrOpt (dGet k p) (dGet k s)) :=
    alGet_mapped (fun k2 => pyOrOpt (dGet k2 p) (dGet k2 s)) SCHEMA_KEYS k hk
  have hm : dGet k (mergeFacts p s) = pyOrOpt (dGet k p) (dGet k s) := dGet_of_alGet halg
  constructor
  · intro v hv
    have hv2 : v ≠ "" := by
      intro h
      exact hp k hk (by rw [hv, h])
    rw [hm, hv]
    simp [pyOrOpt, pyTruthy, hv2]
  · intro hv
    rw [hm, hv]
    rfl

/-- C2 witness: the theorem applied to concrete records, the hypotheses
discharged by evaluation. -/
theorem C2_merge_priority_completion_witness :
    ((∀ k ∈ SCHEMA_KEYS, dGet k [("tenant_name", some "Acme Corp")] ≠ some "") ∧
      "tenant_name" ∈ SCHEMA_KEYS) ∧
    ((∀ v, dGet "tenant_name" [("tenant_name", some "Acme Corp")] = some v →
        dGet "tenant_name"
          (mergeFacts [("tenant_name", some "Acme Corp")] [("tenant_name", some "Other Co")]) = some v) ∧
      (dGet "tenant_name" [("tenant_name", some "Acme Corp")] = none →
        dGet "tenant_name"
          (mergeFacts [("tenant_name", some "Acme Corp")] [("tenant_name", some "Other Co")]) =
          dGet "tenant_name" [("tenant_name", some "Other Co")])) :=
  ⟨⟨by decide, by decide⟩,
   C2_merge_priority_completion [("tenant_name", some "Acme Corp")] [("tenant_name", some "Other Co")]
     (by decide) "tenant_name" (by decide)⟩

/-- C3 (counterexample): the claim fails on the code.  On
`"Security Deposit: $5,000.00"` the pipeline captures the amount after the
`Security Deposit` label but returns it verbatim: the result keeps the
thousands-separator comma, so it does not contain only digits and the
decimal point. -/
theorem C3_deposit_comma_counterexample :
    dGet "security_deposit" (extractLeaseFactsFromText "Security Deposit: $5,000.00") =
      some "5,000.00" ∧
    ',' ∈ "5,000.00".data :=
  ⟨by decide, by decide⟩

/-- C3 (amended): when the security-deposit pattern captures a (non-empty)
numeric amount after the `Security Deposit` label, the pipeline returns the
captured group verbatim — the numeric normalizer of line 157 is applied
only to the square-footage capture, not to the deposit. -/
theorem C3_deposit_returned_verbatim (text : String) (v : String)
    (h : firstMatch patDeposit text = some v) (hv : v ≠ "") :
    dGet "security_deposit" (extractLeaseFactsFromText text) = some v := by
  rw [dGet_of_alGet (alGet_security_deposit text), h]
  simp [pyTruthy, hv]

/-- C3 witness: the amended theorem applied at a concrete text. -/
theorem C3_deposit_returned_verbatim_witness :
    (firstMatch patDeposit "Security Deposit: 250" = some "250" ∧ "250" ≠ "") ∧
    dGet "security_deposit" (extractLeaseFactsFromText "Security Deposit: 250") = some "250" :=
  ⟨⟨by decide, by decide⟩,
   C3_deposit_returned_verbatim "Security Deposit: 250" "250" (by decide) (by decide)⟩

/-- C4: for every input mapping the Output Formatter returns a record with
exactly the eleven canonical keys; a canonical key absent from the input or
mapped to `""`/`None` comes out as the missing sentinel; a canonical key
with a non-empty value is passed through; every output value is missing or
a non-empty string; keys outside the eleven never appear. -/
theorem C4_formatter_schema (f : Facts) :
    keysOf (formatFactsOutput f) = SCHEMA_KEYS ∧
    (∀ k, k ∉ SCHEMA_KEYS → alGet k (formatFactsOutput f) = none) ∧
    (∀ k, k ∈ SCHEMA_KEYS →
      ((alGet k f = none ∨ alGet k f = some none ∨ alGet k f = some (some "")) →
         alGet k (formatFactsOutput f) = some none) ∧
      (∀ s, alGet k f = some (some s) → s ≠ "" →
         alGet k (formatFactsOutput f) = some (some s))) ∧
    (∀ k v, (k, v) ∈ formatFactsOutput f → v = none ∨ ∃ s, v = some s ∧ s ≠ "") := by
  refine ⟨keysOf_mapped _ _, fun k hk => alGet_mapped_none _ _ k hk, fun k hk => ?_, ?_⟩
  · have h : alGet k (formatFactsOutput f) = some (normVal (alGet k f)) :=
      alGet_mapped (fun k2 => normVal (alGet k2 f)) SCHEMA_KEYS k hk
    constructor
    · intro hcase
      rw [h]
      rcases hcase with h1 | h1 | h1 <;> rw [h1] <;> rfl
    · intro s hs hs2
      rw [h, hs]
      simp [normVal, hs2]
  · intro k v hmem
    obtain ⟨k2, _, heq⟩ := List.mem_map.mp hmem
    have hv : v = normVal (alGet k2 f) := by
      have := congrArg Prod.snd heq
      simpa using this.symm
    rw [hv]
    exact normVal_shape _

/-- C4 witness: the theorem applied to a concrete mapping holding an
unrecognized key and an empty-string canonical key. -/
theorem C4_formatter_schema_witness :
    ("bogus_key" ∉ SCHEMA_KEYS ∧ "tenant_name" ∈ SCHEMA_KEYS) ∧
    alGet "bogus_key" (formatFactsOutput [("bogus_key", some "x"), ("tenant_name", some "")]) = none ∧
    alGet "tenant_name" (formatFactsOutput [("bogus_key", some "x"), ("tenant_name", some "")]) =
      some none :=
  ⟨⟨by decide, by decide⟩,
   (C4_formatter_schema [("bogus_key", some "x"), ("tenant_name", some "")]).2.1 "bogus_key" (by decide),
   ((C4_formatter_schema [("bogus_key", some "x"), ("tenant_name", some "")]).2.2.1 "tenant_name"
     (by decide)).1 (Or.inr (Or.inr (by decide)))⟩

/-- C5: the Output Formatter is idempotent: applying it to its own output
yields the same record. -/
theorem C5_formatter_idempotent (x : Facts) :
    formatFactsOutput (formatFactsOutput x) = formatFactsOutput x := by
  show SCHEMA_KEYS.map (fun k => (k, normVal (alGet k (formatFactsOutput x)))) =
    SCHEMA_KEYS.map (fun k => (k, normVal (alGet k x)))
  refine List.map_congr_left fun k hk => ?_
  have h : alGet k (formatFactsOutput x) = some (normVal (alGet k x)) :=
    alGet_mapped (fun k2 => normVal (alGet k2 x)) SCHEMA_KEYS k hk
  rw [h, normVal_idem]

/-- C6: the date normalizer returns a canonical `DD-MM-YYYY` string or the
missing sentinel for every input (it is a total `Option`-valued function:
the source's `try/except` never lets an exception reach the caller); and on
text containing `"Commencement Date: March 1, 2023"` the extracted
`lease_commencement_date` is `"01-03-2023"`. -/
theorem C6_date_normalizer_canonical (s : String) :
    (normalizeDate s = none ∨
      ∃ t, normalizeDate s = some t ∧ isCanonDDMMYYYY t = true) ∧
    dGet "lease_commencement_date"
        (extractLeaseFactsFromText "Commencement Date: March 1, 2023") =
      some "01-03-2023" := by
  constructor
  · match h : parseFuzzyDate s with
    | none => exact Or.inl (by simp [normalizeDate, h])
    | some (d, m, y) =>
      exact Or.inr ⟨strftimeDMY d m y, by simp [normalizeDate, h], isCanon_strftimeDMY d m y⟩
  · decide

/-- C7: text containing the statement `"Security Deposit: None"` yields the
literal string `"None"`, while any text matched by neither the
deposit-amount pattern nor the explicit-negation pattern (no recognizable
security-deposit statement) yields the missing sentinel, not `"None"`. -/
theorem C7_security_deposit_none (text : String)
    (h1 : firstMatch patDeposit text = none)
    (h2 : reSearch patDepositNone text = none) :
    dGet "security_deposit" (extractLeaseFactsFromText "Security Deposit: None") = some "None" ∧
    dGet "security_deposit" (extractLeaseFactsFromText text) = none := by
  refine ⟨by decide, ?_⟩
  rw [dGet_of_alGet (alGet_security_deposit text), h1, h2]
  rfl

/-- C7 witness: the theorem applied at a text with no security-deposit
statement. -/
theorem C7_security_deposit_none_witness :
    (firstMatch patDeposit "Tenant: Acme Corp" = none ∧
      reSearch patDepositNone "Tenant: Acme Corp" = none) ∧
    (dGet "security_deposit" (extractLeaseFactsFromText "Security Deposit: None") = some "None" ∧
      dGet "security_deposit" (extractLeaseFactsFromText "Tenant: Acme Corp") = none) :=
  ⟨⟨by decide, by decide⟩,
   C7_security_deposit_none "Tenant: Acme Corp" (by decide) (by decide)⟩

/-- C8: on text `"Address: 123 Main Street, Suite 4B"` the label-based
strategy captures the line, extracts the suite marker and removes the suite
substring plus its leading separator from the candidate:
`property_address="123 Main Street"`, `suite="4B"`,
`property_address_and_suite="123 Main Street Suite 4B"`. -/
theorem C8_address_suite_scenario :
    extractAddressAndSuite "Address: 123 Main Street, Suite 4B" =
      (some "123 Main Street", some "4B") ∧
    dGet "property_address" (extractLeaseFactsFromText "Address: 123 Main Street, Suite 4B") =
      some "123 Main Street" ∧
    dGet "suite" (extractLeaseFactsFromText "Address: 123 Main Street, Suite 4B") = some "4B" ∧
    dGet "property_address_and_suite"
        (extractLeaseFactsFromText "Address: 123 Main Street, Suite 4B") =
      some "123 Main Street Suite 4B" :=
  ⟨by decide, by decide, by decide, by decide⟩

/-- C9: the deterministic pipeline is total (a Lean function on all input
strings) and returns a record with exactly the eleven canonical keys; each
field equals its own extractor applied to the text, so one extractor
returning the missing sentinel (no match or normalization failure) cannot
affect any other field or abort the pipeline. -/
theorem C9_pipeline_total_and_independent (text : String) :
    keysOf (extractLeaseFactsFromText text) = SCHEMA_KEYS ∧
    dGet "tenant_name" (extractLeaseFactsFromText text) = firstMatch patTenant text ∧
    dGet "landlord_name" (extractLeaseFactsFromText text) = firstMatch patLandlord text ∧
    dGet "property_address" (extractLeaseFactsFromText text) = (extractAddressAndSuite text).1 ∧
    dGet "suite" (extractLeaseFactsFromText text) = (extractAddressAndSuite text).2 ∧
    dGet "property_address_and_suite" (extractLeaseFactsFromText text) =
      combineAddrSuite (extractAddressAndSuite text).1 (extractAddressAndSuite text).2 ∧
    dGet "total_square_feet" (extractLeaseFactsFromText text) =
      (if pyTruthy (firstMatch patSquareFeet text)
       then (firstMatch patSquareFeet text).map numericNormalize else none) ∧
    dGet "lease_commencement_date" (extractLeaseFactsFromText text) =
      (if pyTruthy (firstMatch patCommence text)
       then normalizeDate ((firstMatch patCommence text).getD "") else none) ∧
    dGet "lease_expiration_date" (extractLeaseFactsFromText text) =
      (if pyTruthy (firstMatch patExpire text)
       then normalizeDate ((firstMatch patExpire text).getD "") else none) ∧
    dGet "proportionate_share" (extractLeaseFactsFromText text) = firstMatch patShare text ∧
    dGet "base_year" (extractLeaseFactsFromText text) = firstMatch patBaseYear text ∧
    dGet "security_deposit" (extractLeaseFactsFromText text) =
      (if pyTruthy (if pyTruthy (firstMatch patDeposit text)
                    then firstMatch patDeposit text
                    else match reSearch patDepositNone text with
                         | some _ => some "None"
                         | none => none)
       then (if pyTruthy (firstMatch patDeposit text)
             then firstMatch patDeposit text
             else match reSearch patDepositNone text with
                  | some _ => some "None"
                  | none => none)
       else none) :=
  ⟨rfl, dGet_of_alGet rfl, dGet_of_alGet rfl, dGet_of_alGet rfl, dGet_of_alGet rfl,
   dGet_of_alGet rfl, dGet_of_alGet rfl, dGet_of_alGet rfl, dGet_of_alGet rfl,
   dGet_of_alGet rfl, dGet_of_alGet rfl, dGet_of_alGet (alGet_security_deposit text)⟩

/-- C10: for every pair of input mappings — empty, partial, or carrying
keys outside the schema — the Fact Merger returns a record whose key set is
exactly the eleven canonical keys, and no key outside the eleven appears in
its output. -/
theorem C10_merger_exact_schema_keys (p s : Facts) :
    keysOf (mergeFacts p s) = SCHEMA_KEYS ∧
    ∀ k, k ∉ SCHEMA_KEYS → alGet k (mergeFacts p s) = none :=
  ⟨keysOf_mapped _ _, fun k hk => alGet_mapped_none _ _ k hk⟩

/-- C10 witness: the theorem applied to mappings carrying an unrecognized
key. -/
theorem C10_merger_exact_schema_keys_witness :
    ("bogus_key" ∉ SCHEMA_KEYS) ∧
    keysOf (mergeFacts [("bogus_key", some "x")] []) = SCHEMA_KEYS ∧
    alGet "bogus_key" (mergeFacts [("bogus_key", some "x")] []) = none :=
  ⟨by decide, (C10_merger_exact_schema_keys [("bogus_key", some "x")] []).1,
   (C10_merger_exact_schema_keys [("bogus_key", some "x")] []).2 "bogus_key" (by decide)⟩
